import Mathlib

/-!
Shallow embedding of the `mkarusala/ticket-booking-app` repository:
an Express single-route HTTP service (`src/app.js`) together with its
Jenkins delivery pipeline (`src/Jenkinsfile`).
-/

namespace TicketApp

/-- JavaScript truthiness of a string value: every string except the empty
string is truthy. Environment-variable values are always strings in Node. -/
def jsTruthy (s : String) : Bool := s ≠ ""

/-- JavaScript `a || b` on an optional string `a` (an env var that may be
`undefined`) with a string default `b`: returns `b` when `a` is `undefined`
or falsy (the empty string). Embeds `process.env.NODE_ENV || 'production'`
from `src/app.js` line 10. -/
def jsOrString (v : Option String) (dflt : String) : String :=
  match v with
  | none => dflt
  | some s => if jsTruthy s then s else dflt

/-- The process environment: a partial map from variable names to string
values (Node's `process.env`). -/
abbrev ProcessEnv := String → Option String

/-- `process.env.NODE_ENV` in `src/app.js` line 10. -/
def nodeEnv (env : ProcessEnv) : Option String := env "NODE_ENV"

/-- `const PORT = 3000;` — `src/app.js` line 3. -/
def PORT : Nat := 3000

/-- The port `app.listen` binds, as a function of the process environment
(`src/app.js` line 14 passes the constant `PORT`; the environment is not
consulted). -/
def listenPort (_env : ProcessEnv) : Nat := PORT

/-- HTTP request methods relevant to Express routing. -/
inductive Method
  | GET
  | POST
  | PUT
  | DELETE
  | PATCH
  deriving DecidableEq, Repr

/-- Printable method name, used in the framework's default not-found body. -/
def Method.name : Method → String
  | .GET => "GET"
  | .POST => "POST"
  | .PUT => "PUT"
  | .DELETE => "DELETE"
  | .PATCH => "PATCH"

/-- An incoming HTTP request: the handler in `src/app.js` consults neither
query, body nor headers, so method and path suffice. -/
structure Request where
  method : Method
  path : String
  deriving DecidableEq, Repr

/-- The JSON payload sent by the root handler (`src/app.js` lines 7-11):
exactly three string fields. -/
structure StatusBody where
  message : String
  version : String
  environment : String
  deriving DecidableEq, Repr

/-- The response produced by the root handler: a status code plus the
three-field JSON body. -/
structure RootResponse where
  status : Nat
  body : StatusBody
  deriving DecidableEq, Repr

/-- The root route handler, `app.get` at `src/app.js` lines 6-12:
`res.status(200).send({ message, version, environment })`. The request is
ignored by the handler body. -/
def rootHandler (env : ProcessEnv) (_req : Request) : RootResponse :=
  { status := 200
    body :=
      { message := "Ticket Booking Service is up and running!"
        version := "1.0.0"
        environment := jsOrString (nodeEnv env) "production" } }

/-- What the application sends back: either a registered route's response,
or Express's default not-found response (status 404, body
`Cannot METHOD path`). -/
inductive HttpResponse
  | route (r : RootResponse)
  | expressNotFound (method : Method) (path : String)
  deriving DecidableEq, Repr

/-- The status code of a response; Express's default not-found handler
replies 404. -/
def HttpResponse.statusCode : HttpResponse → Nat
  | .route r => r.status
  | .expressNotFound _ _ => 404

/-- The route table registered on `app`: exactly one route, `GET /`
(`src/app.js` line 6). -/
def routes : List (Method × String) := [(Method.GET, "/")]

/-- Whether a request matches a registered route (method and path). -/
def routeMatches (req : Request) (r : Method × String) : Bool :=
  decide (req.method = r.1) && decide (req.path = r.2)

/-- Express dispatch: the first matching registered route handles the
request; with no match the framework's default not-found response is sent. -/
def dispatch (env : ProcessEnv) (req : Request) : HttpResponse :=
  if routes.any (routeMatches req) then
    .route (rootHandler env req)
  else
    .expressNotFound req.method req.path

/-- The two process states: before and after `app.listen` succeeds. -/
inductive ServerState
  | notListening
  | listening
  deriving DecidableEq, Repr

/-- The one-way startup transition performed by `app.listen`
(`src/app.js` lines 14-16). -/
def startServer : ServerState := .listening

/-- Handling a request: produces a response and the (unchanged) server
state — the handler touches no mutable state. -/
def handleRequest (env : ProcessEnv) (st : ServerState) (req : Request) :
    HttpResponse × ServerState :=
  (dispatch env req, st)

/-- Serving a sequence of requests, threading the server state. -/
def serve (env : ProcessEnv) : ServerState → List Request → ServerState
  | st, [] => st
  | st, r :: rs => serve env (handleRequest env st r).2 rs

/-- The empty process environment (no variable set). -/
def envNone : ProcessEnv := fun _ => none

/-- A process environment with exactly `NODE_ENV` set to `v`. -/
def setNodeEnv (v : String) : ProcessEnv :=
  fun n => if n = "NODE_ENV" then some v else none

namespace Pipeline

/-- The stages of the declarative Jenkins pipeline (`src/Jenkinsfile`),
in their declared order. -/
inductive Stage
  | checkout
  | lintInstall
  | buildImage
  | tests
  | scan
  | push
  | deploy
  deriving DecidableEq, Repr

/-- The declared stage order of `src/Jenkinsfile`: checkout, lint/install,
docker build, parallel tests, scan, push, deploy. -/
def stageOrder : List Stage :=
  [.checkout, .lintInstall, .buildImage, .tests, .scan, .push, .deploy]

/-- The pipeline's interpolation inputs for the image tag: the Docker Hub
repository, Jenkins's `BUILD_NUMBER` and the short git commit computed in
stage 1. -/
structure BuildEnv where
  dockerRepo : String
  buildNumber : String
  gitCommitShort : String
  deriving DecidableEq, Repr

/-- Stage 3 (`src/Jenkinsfile` line 70): the deterministic tag
`REPO:BUILD_NUMBER-GIT_COMMIT_SHORT`. -/
def imageTag (b : BuildEnv) : String :=
  b.dockerRepo ++ ":" ++ b.buildNumber ++ "-" ++ b.gitCommitShort

/-- The floating tag pushed alongside the deterministic one
(`src/Jenkinsfile` lines 120-121). -/
def latestTag (b : BuildEnv) : String := b.dockerRepo ++ ":latest"

/-- The image references stage 6 pushes to the registry, in order:
`img.push()` for the deterministic tag, then `docker push REPO:latest`. -/
def pushStageTags (b : BuildEnv) : List String := [imageTag b, latestTag b]

/-- Outcomes of the external tool invocations each stage shells out to
(whether the command would exit successfully). -/
structure ExternalResults where
  checkoutOk : Bool
  installOk : Bool
  dockerBuildOk : Bool
  unitTestsOk : Bool
  integrationTestsOk : Bool
  pushOk : Bool
  deployOk : Bool
  deriving DecidableEq, Repr

/-- The integration branch's `sh` step, `src/Jenkinsfile` line 95:
`if [ -f package.json ] && npm run -s integration-test >/dev/null 2>&1;
then npm run integration-test; else echo "..."; fi`. The integration suite
runs inside the if-condition with output discarded; when it exits nonzero
the else branch echoes and exits 0, so the step swallows the failure. Only
when the first run succeeds does the then branch rerun the suite (same
deterministic result), so the step exits 0 either way. -/
def integrationStepOk (r : ExternalResults) : Bool :=
  if r.integrationTestsOk then r.integrationTestsOk else true

/-- Whether a stage succeeds given the external outcomes. In the parallel
tests stage the unit branch fails on `npm test` failure (`src/Jenkinsfile`
line 87 appends `exit 1`), while the integration branch's step swallows an
integration-test failure (`integrationStepOk`, line 95). Stage 5 runs only
`echo` steps, so it always succeeds. -/
def stageOutcome (r : ExternalResults) : Stage → Bool
  | .checkout => r.checkoutOk
  | .lintInstall => r.installOk
  | .buildImage => r.dockerBuildOk
  | .tests => r.unitTestsOk && integrationStepOk r
  | .scan => true
  | .push => r.pushOk
  | .deploy => r.deployOk

/-- Declarative-pipeline semantics: stages run in declared order; a stage
failure halts the pipeline, so later stages never start. Returns the list
of stages that executed and whether the pipeline succeeded. -/
def runStages (f : Stage → Bool) : List Stage → List Stage × Bool
  | [] => ([], true)
  | s :: rest =>
    if f s then
      let (ex, ok) := runStages f rest
      (s :: ex, ok)
    else
      ([s], false)

/-- The stages that execute in a run with the given external outcomes. -/
def executedStages (r : ExternalResults) : List Stage :=
  (runStages (stageOutcome r) stageOrder).1

/-- Whether the run with the given external outcomes succeeds. -/
def pipelineSucceeds (r : ExternalResults) : Bool :=
  (runStages (stageOutcome r) stageOrder).2

end Pipeline

/-- Helper: handling requests never changes the server state, so serving
any sequence of requests leaves the state where it started. -/
theorem serve_preserves_state (env : ProcessEnv) :
    ∀ (reqs : List Request) (st : ServerState), serve env st reqs = st
  | [], _ => rfl
  | _ :: rs, st => serve_preserves_state env rs st

/-- Claim C1: every request to GET / is dispatched to the root handler,
which returns the fixed success status 200 and a JSON body of exactly the
three string fields message, version and environment; the handler is a
total function with no error branch. -/
theorem C1_root_route_shape (env : ProcessEnv) (req : Request)
    (hm : req.method = Method.GET) (hp : req.path = "/") :
    dispatch env req = .route (rootHandler env req) ∧
    (rootHandler env req).status = 200 ∧
    ∃ m v e : String, (rootHandler env req).body = ⟨m, v, e⟩ := by
  refine ⟨?_, rfl, _, _, _, rfl⟩
  simp [dispatch, routes, routeMatches, hm, hp]

/-- Witness for C1 at the concrete request GET / with no environment. -/
theorem C1_root_route_shape_witness :
    dispatch envNone ⟨Method.GET, "/"⟩ = .route (rootHandler envNone ⟨Method.GET, "/"⟩) ∧
    (rootHandler envNone ⟨Method.GET, "/"⟩).status = 200 ∧
    ∃ m v e : String, (rootHandler envNone ⟨Method.GET, "/"⟩).body = ⟨m, v, e⟩ :=
  C1_root_route_shape envNone ⟨Method.GET, "/"⟩ rfl rfl

/-- Claim C2 counterexample: with NODE_ENV set to the empty string (a set
value), the environment field is the fallback, not the set value — so the
field does not equal the variable's value for all set values. -/
theorem C2_env_value_counterexample :
    ¬ (rootHandler (setNodeEnv "") ⟨Method.GET, "/"⟩).body.environment = "" := by
  decide

/-- Claim C2 (amended): the environment field equals the variable's value
whenever the variable is set to a non-empty string; when the variable is
absent or set to the empty string, the field is the fallback
"production". -/
theorem C2_env_field_amended (env : ProcessEnv) (req : Request) :
    (∀ v : String, nodeEnv env = some v → v ≠ "" →
      (rootHandler env req).body.environment = v) ∧
    (nodeEnv env = none ∨ nodeEnv env = some "" →
      (rootHandler env req).body.environment = "production") := by
  constructor
  · intro v hv hne
    simp [rootHandler, jsOrString, hv, jsTruthy, hne]
  · rintro (h | h) <;> simp [rootHandler, jsOrString, h, jsTruthy]

/-- Witness for the amended C2 with NODE_ENV set to "staging". -/
theorem C2_env_field_amended_witness :
    (rootHandler (setNodeEnv "staging") ⟨Method.GET, "/"⟩).body.environment = "staging" :=
  (C2_env_field_amended (setNodeEnv "staging") ⟨Method.GET, "/"⟩).1 "staging"
    (by decide) (by decide)

/-- Claim C3: with no environment variable set, GET / returns exactly the
documented body: the fixed message, version "1.0.0" and environment
"production". -/
theorem C3_default_body :
    dispatch envNone ⟨Method.GET, "/"⟩ =
      .route ⟨200, ⟨"Ticket Booking Service is up and running!", "1.0.0", "production"⟩⟩ := by
  decide

/-- Claim C4: the environment variable influences only the environment
field — message and version agree across any two environment
configurations and requests — and setting it to "staging" makes the
environment field "staging". -/
theorem C4_frame_effect (env₁ env₂ : ProcessEnv) (req₁ req₂ : Request) :
    (rootHandler env₁ req₁).body.message = (rootHandler env₂ req₂).body.message ∧
    (rootHandler env₁ req₁).body.version = (rootHandler env₂ req₂).body.version ∧
    (rootHandler (setNodeEnv "staging") req₁).body.environment = "staging" :=
  ⟨rfl, rfl, rfl⟩

/-- Claim C5: the handler is deterministic and side-effect-free — message
and version are identical across any two invocations, a single request
leaves the server state unchanged, and serving any sequence of requests
modifies no state observable later. -/
theorem C5_handler_pure (env₁ env₂ : ProcessEnv) (st : ServerState)
    (req₁ req₂ : Request) (reqs : List Request) :
    (rootHandler env₁ req₁).body.message = (rootHandler env₂ req₂).body.message ∧
    (rootHandler env₁ req₁).body.version = (rootHandler env₂ req₂).body.version ∧
    (handleRequest env₁ st req₁).2 = st ∧
    serve env₁ st reqs = st :=
  ⟨rfl, rfl, rfl, serve_preserves_state env₁ reqs st⟩

/-- Claim C6 counterexample: the bound port is not determined by process
configuration — no two environments yield different ports, since
`app.listen` is passed the constant 3000. -/
theorem C6_port_counterexample :
    ¬ ∃ env₁ env₂ : ProcessEnv, listenPort env₁ ≠ listenPort env₂ := by
  rintro ⟨e₁, e₂, h⟩
  exact h rfl

/-- Claim C6 (amended): the process binds the fixed port 3000 regardless of
configuration, and after `app.listen` it serves indefinitely — handling any
sequence of requests leaves it listening; no transition stops it. -/
theorem C6_fixed_port_serves (env : ProcessEnv) (reqs : List Request) :
    listenPort env = 3000 ∧ serve env startServer reqs = ServerState.listening :=
  ⟨rfl, serve_preserves_state env reqs startServer⟩

/-- Claim C7: a request whose method is not GET or whose path is not "/"
matches no registered route, so Express's default not-found response
(status 404) is sent and the server state is unchanged — the process keeps
serving. -/
theorem C7_unmatched_not_found (env : ProcessEnv) (st : ServerState) (req : Request)
    (h : req.method ≠ Method.GET ∨ req.path ≠ "/") :
    (handleRequest env st req).1 = .expressNotFound req.method req.path ∧
    (handleRequest env st req).1.statusCode = 404 ∧
    (handleRequest env st req).2 = st := by
  have hfalse : routes.any (routeMatches req) = false := by
    rcases h with h | h <;> simp [routes, routeMatches, h]
  refine ⟨?_, ?_, rfl⟩ <;>
    simp [handleRequest, dispatch, hfalse, HttpResponse.statusCode]

/-- Witness for C7 at the concrete undefined path GET /tickets. -/
theorem C7_unmatched_not_found_witness :
    (handleRequest envNone ServerState.listening ⟨Method.GET, "/tickets"⟩).1 =
      .expressNotFound Method.GET "/tickets" ∧
    (handleRequest envNone ServerState.listening ⟨Method.GET, "/tickets"⟩).1.statusCode = 404 ∧
    (handleRequest envNone ServerState.listening ⟨Method.GET, "/tickets"⟩).2 =
      ServerState.listening :=
  C7_unmatched_not_found envNone ServerState.listening ⟨Method.GET, "/tickets"⟩
    (Or.inr (by decide))

/-- Claim C8 counterexample: a run in which the test suite fails — the
unit tests pass but the integration suite fails — still executes both the
push and the deploy stage and the pipeline succeeds, because the
integration branch's shell step discards the failure (the else branch of
`src/Jenkinsfile` line 95 exits 0). -/
theorem C8_integration_failure_counterexample :
    Pipeline.Stage.push ∈
      Pipeline.executedStages ⟨true, true, true, true, false, true, true⟩ ∧
    Pipeline.Stage.deploy ∈
      Pipeline.executedStages ⟨true, true, true, true, false, true, true⟩ ∧
    Pipeline.pipelineSucceeds ⟨true, true, true, true, false, true, true⟩ = true := by
  decide

/-- Claim C8 (amended): in every pipeline execution in which the unit test
suite fails, the pipeline fails and the push and deploy stages never
execute; an integration-test failure alone does not halt the pipeline,
since its step swallows the nonzero exit. -/
theorem C8_unit_test_failure_halts (r : Pipeline.ExternalResults)
    (h : r.unitTestsOk = false) :
    Pipeline.Stage.push ∉ Pipeline.executedStages r ∧
    Pipeline.Stage.deploy ∉ Pipeline.executedStages r ∧
    Pipeline.pipelineSucceeds r = false := by
  obtain ⟨c, i, d, u, it, p, dp⟩ := r
  revert h
  revert c i d u it p dp
  decide

/-- Witness for the amended C8: a run where only the unit tests fail. -/
theorem C8_unit_test_failure_halts_witness :
    Pipeline.Stage.push ∉
      Pipeline.executedStages ⟨true, true, true, false, true, true, true⟩ ∧
    Pipeline.Stage.deploy ∉
      Pipeline.executedStages ⟨true, true, true, false, true, true, true⟩ ∧
    Pipeline.pipelineSucceeds ⟨true, true, true, false, true, true, true⟩ = false :=
  C8_unit_test_failure_halts ⟨true, true, true, false, true, true, true⟩ (by decide)

/-- Claim C9: the image tag is a deterministic function of the build
number and short commit (equal inputs give equal tags), equals the
repository name, a colon, then the build identifier concatenated via a
hyphen with the short hash, and the push stage publishes exactly that tag
and the floating latest tag. -/
theorem C9_deterministic_tags (b b' : Pipeline.BuildEnv)
    (h₁ : b.dockerRepo = b'.dockerRepo) (h₂ : b.buildNumber = b'.buildNumber)
    (h₃ : b.gitCommitShort = b'.gitCommitShort) :
    Pipeline.imageTag b = Pipeline.imageTag b' ∧
    Pipeline.imageTag b = b.dockerRepo ++ ":" ++ (b.buildNumber ++ "-" ++ b.gitCommitShort) ∧
    Pipeline.pushStageTags b = [Pipeline.imageTag b, b.dockerRepo ++ ":latest"] := by
  refine ⟨?_, ?_, rfl⟩
  · simp [Pipeline.imageTag, h₁, h₂, h₃]
  · simp [Pipeline.imageTag, String.append_assoc]

/-- Witness for C9 at a concrete repository, build number and commit. -/
theorem C9_deterministic_tags_witness :
    Pipeline.imageTag ⟨"yourdockerhub/ticket-booking-app", "7", "abc1234"⟩ =
      Pipeline.imageTag ⟨"yourdockerhub/ticket-booking-app", "7", "abc1234"⟩ ∧
    Pipeline.imageTag ⟨"yourdockerhub/ticket-booking-app", "7", "abc1234"⟩ =
      "yourdockerhub/ticket-booking-app" ++ ":" ++ ("7" ++ "-" ++ "abc1234") ∧
    Pipeline.pushStageTags ⟨"yourdockerhub/ticket-booking-app", "7", "abc1234"⟩ =
      [Pipeline.imageTag ⟨"yourdockerhub/ticket-booking-app", "7", "abc1234"⟩,
        "yourdockerhub/ticket-booking-app" ++ ":latest"] :=
  C9_deterministic_tags ⟨"yourdockerhub/ticket-booking-app", "7", "abc1234"⟩
    ⟨"yourdockerhub/ticket-booking-app", "7", "abc1234"⟩ rfl rfl rfl

/-- Claim C10: the empty string is falsy under the JS `||` used by the
handler, so NODE_ENV set to "" yields the fallback "production", not the
empty string. -/
theorem C10_empty_string_falsy :
    jsTruthy "" = false ∧
    (rootHandler (setNodeEnv "") ⟨Method.GET, "/"⟩).body.environment = "production" ∧
    (rootHandler (setNodeEnv "") ⟨Method.GET, "/"⟩).body.environment ≠ "" := by
  decide

end TicketApp
